import Mathlib

/-!
# Travelleasy backend — shallow embedding and verification

Shallow embedding of `src/server.js` (an Express ticketing backend) and
proofs about the claims of its specification.  External collaborators
(MongoDB, Twilio, bcrypt, jsonwebtoken, qrcode, face-api.js) are modelled
as explicit parameters or abstract payloads; every handler becomes a pure
function from request data and current state to a response and a new state.
HTTP responses are modelled as structures carrying the exact status code,
success flag and message strings of the source.
-/

namespace Travelleasy

/-! ## JS helpers

JavaScript truthiness for request-body string fields: a field is falsy when
it is absent (`undefined`) or the empty string. -/

/-- `true` when a JS string value is truthy: present and non-empty. -/
def truthyStr : Option String → Bool
  | none => false
  | some s => s ≠ ""

/-- `phoneNumber.startsWith('+')`: the string opens with a `+`. -/
def startsWithPlus (p : String) : Bool :=
  p.data.head? = some '+'

/-! ## OTP store

`let otpStore = {}` — a process-local mutable object mapping phone numbers
to code strings, plus the `setTimeout` deletions scheduled against it.
An association list with unique keys models the object; scheduled deletions
are kept as `(key, fireTime)` pairs and fired by `fireTimers`. -/

/-- JS object indexing `otpStore[k]`: the value bound to `k`, if any. -/
def lookupKey : List (String × String) → String → Option String
  | [], _ => none
  | (k, v) :: s, p => if p = k then some v else lookupKey s p

/-- Remove a key from the store, as JS `delete otpStore[k]`. -/
def delKey (s : List (String × String)) (k : String) : List (String × String) :=
  s.filter (fun e => e.1 ≠ k)

/-- Set a key in the store, as JS `otpStore[k] = v` (overwrites). -/
def setKey (s : List (String × String)) (k v : String) : List (String × String) :=
  (k, v) :: delKey s k

/-- Process-local OTP state: the store object and the pending
`setTimeout(() => delete otpStore[k], …)` deletions as `(key, fireTime)`. -/
structure OtpState where
  store : List (String × String)
  timers : List (String × Nat)
  deriving Repr, DecidableEq

/-- Fire every scheduled deletion whose time has come (time `t` in ms):
each fired timer deletes its key from the store unconditionally, exactly as
the `setTimeout` callback does. -/
def fireTimers (st : OtpState) (t : Nat) : OtpState :=
  { store := st.timers.foldl
      (fun s pr => if pr.2 ≤ t then delKey s pr.1 else s) st.store
    timers := st.timers.filter (fun pr => decide (t < pr.2)) }

/-- `Math.floor(100000 + Math.random() * 900000)` with the random source
`r ∈ [0,1)` modelled as a rational. -/
def genOtp (r : ℚ) : ℤ :=
  ⌊(100000 : ℚ) + r * 900000⌋

/-- The 5-minute OTP lifetime, `5 * 60 * 1000` ms. -/
def otpTtlMs : Nat := 5 * 60 * 1000

/-! ## JWT payloads

`jwt.sign(payload, secret, …)` — the signing itself is external; a token is
modelled by the claims the server puts into it. -/

/-- Claims carried by a signed token; each route fills only some fields. -/
structure TokenClaims where
  userId : Option String
  email : Option String
  phoneNumber : Option String
  deriving Repr, DecidableEq

/-! ## `/send-otp` -/

/-- Response body of `POST /send-otp` (status, success flag, message, and
the `otp` echo present only in development). -/
structure SendOtpResp where
  status : Nat
  success : Bool
  message : String
  otpEcho : Option ℤ
  deriving Repr, DecidableEq

/-- Handler of `POST /send-otp`.  `phoneNumber` is the request field,
`r` the value drawn from `Math.random()`, `deliveryOk` the outcome of the
external `twilioClient.messages.create` call, `isDev` the
`NODE_ENV === 'development'` flag and `now` the current time in ms.
Returns the response and the new OTP state. -/
def sendOtp (st : OtpState) (phoneNumber : Option String) (r : ℚ)
    (deliveryOk : Bool) (isDev : Bool) (now : Nat) : SendOtpResp × OtpState :=
  match phoneNumber with
  | none =>
      (⟨400, false,
        "Valid phone number with country code is required (e.g., +91XXXXXXXXXX)",
        none⟩, st)
  | some p =>
      if ¬ startsWithPlus p then
        (⟨400, false,
          "Valid phone number with country code is required (e.g., +91XXXXXXXXXX)",
          none⟩, st)
      else
        let otp := genOtp r
        if deliveryOk then
          ({ status := 200, success := true, message := "OTP sent successfully!",
             otpEcho := if isDev then some otp else none },
           { store := setKey st.store p (toString otp)
             timers := st.timers ++ [(p, now + otpTtlMs)] })
        else
          (⟨500, false, "Error sending OTP.", none⟩, st)

/-! ## `/verify-otp` -/

/-- Response body of `POST /verify-otp`. -/
structure VerifyOtpResp where
  status : Nat
  success : Bool
  message : String
  token : Option TokenClaims
  deriving Repr, DecidableEq

/-- Handler of `POST /verify-otp`: checks presence of both fields, looks the
phone number up in the store, compares codes, and on match deletes the
stored code and signs a token carrying the phone number. -/
def verifyOtp (st : OtpState) (phoneNumber otp : Option String) :
    VerifyOtpResp × OtpState :=
  if ¬ (truthyStr phoneNumber ∧ truthyStr otp) then
    (⟨400, false, "Phone number and OTP are required.", none⟩, st)
  else
    match phoneNumber, otp with
    | some p, some code =>
        match lookupKey st.store p with
        | none => (⟨400, false, "OTP expired or not requested.", none⟩, st)
        | some stored =>
            if stored = code then
              (⟨200, true, "OTP verified successfully!",
                some ⟨none, none, some p⟩⟩,
               { st with store := delKey st.store p })
            else
              (⟨400, false, "Invalid OTP.", none⟩, st)
    | _, _ => (⟨400, false, "Phone number and OTP are required.", none⟩, st)

/-! ## Users and auth routes

The `User` mongoose model: `name`, unique `email`, hashed `password`,
optional `phoneNumber`, optional `faceImagePath`, `createdAt`.  The Mongo
`_id` is modelled as a string chosen by the storage layer; `findOne`
returns the first matching document. -/

/-- A persisted user document (`userSchema`). -/
structure UserDoc where
  id : String
  name : String
  email : String
  password : String
  phoneNumber : Option String
  faceImagePath : Option String
  createdAt : Nat
  deriving Repr, DecidableEq

/-- `User.findOne({ email })`: first stored user with that email. -/
def findUserByEmail (users : List UserDoc) (email : String) : Option UserDoc :=
  users.find? (fun u => u.email = email)

/-- `User.findById(userId)`. -/
def findUserById (users : List UserDoc) (uid : String) : Option UserDoc :=
  users.find? (fun u => u.id = uid)

/-- Public user fields returned by `/register` and `/login` (the
`phoneNumber` field appears only in the login body). -/
structure PubUser where
  id : String
  name : String
  email : String
  phoneNumber : Option (Option String)
  deriving Repr, DecidableEq

/-- Response body of `POST /register` and `POST /login`. -/
structure AuthResp where
  status : Nat
  success : Bool
  message : String
  token : Option TokenClaims
  user : Option PubUser
  deriving Repr, DecidableEq

/-- Handler of `POST /register`.  `hash` models `bcrypt.hash(·, 10)`,
`newId` the `_id` mongoose assigns to the new document, `now` the current
time.  Returns the response and the new user collection. -/
def register (users : List UserDoc) (name email password : Option String)
    (hash : String → String) (newId : String) (now : Nat) :
    AuthResp × List UserDoc :=
  if ¬ (truthyStr name ∧ truthyStr email ∧ truthyStr password) then
    (⟨400, false, "All fields are required.", none, none⟩, users)
  else
    match name, email, password with
    | some nm, some em, some pw =>
        match findUserByEmail users em with
        | some _ =>
            (⟨400, false, "Email or phone number already registered.",
              none, none⟩, users)
        | none =>
            let u : UserDoc :=
              ⟨newId, nm, em, hash pw, none, none, now⟩
            (⟨201, true, "User registered successfully",
              some ⟨some newId, some em, none⟩,
              some ⟨newId, nm, em, none⟩⟩, users ++ [u])
    | _, _, _ => (⟨400, false, "All fields are required.", none, none⟩, users)

/-- Handler of `POST /login`.  `checkHash p h` models
`bcrypt.compare(p, h)`. -/
def login (users : List UserDoc) (email password : Option String)
    (checkHash : String → String → Bool) : AuthResp :=
  if ¬ (truthyStr email ∧ truthyStr password) then
    ⟨400, false, "Email and password are required.", none, none⟩
  else
    match email, password with
    | some em, some pw =>
        match findUserByEmail users em with
        | none => ⟨401, false, "Invalid credentials.", none, none⟩
        | some u =>
            if checkHash pw u.password then
              ⟨200, true, "Login successful",
                some ⟨some u.id, some u.email, u.phoneNumber⟩,
                some ⟨u.id, u.name, u.email, some u.phoneNumber⟩⟩
            else
              ⟨401, false, "Invalid credentials.", none, none⟩
    | _, _ => ⟨400, false, "Email and password are required.", none, none⟩

/-! ## Tickets

The `Ticket` mongoose model (`ticketSchema`).  Its schema paths are
exactly: `ticketId`, `userId`, `source`, `destination`, `phoneNumber`,
`qrCode`, `aadhaarNumber`, `status`, `bookingDate`, `createdAt` — there is
no `expiresAt` path.  `createdAt` carries `expires: '24h'`, a storage-layer
TTL that deletes the document 24 hours after `createdAt`. -/

/-- Ticket status enum `['active', 'used', 'expired']`. -/
inductive TStatus where
  | active
  | used
  | expired
  deriving Repr, DecidableEq

/-- A persisted ticket document: exactly the paths of `ticketSchema`. -/
structure TicketDoc where
  ticketId : String
  userId : String
  source : String
  destination : String
  phoneNumber : String
  qrCode : String
  aadhaarNumber : Option String
  status : TStatus
  bookingDate : Nat
  createdAt : Nat
  deriving Repr, DecidableEq

/-- The storage TTL on `createdAt` (`expires: '24h'`), in ms. -/
def ticketTtlMs : Nat := 24 * 60 * 60 * 1000

/-- Time at which the storage layer purges a ticket document, independent
of its status. -/
def ticketPurgeTime (t : TicketDoc) : Nat := t.createdAt + ticketTtlMs

/-- Mongoose strict mode: constructing a `Ticket` document keeps only the
schema paths, so the `expiresAt` value passed by the handler is discarded
and reading `ticket.expiresAt` yields `undefined`. -/
def TicketDoc.expiresAtField (_t : TicketDoc) : Option Nat := none

/-- The trip-data payload `ticketData` the handler builds and feeds to the
QR encoder (`qrcode.toDataURL(JSON.stringify(ticketData))`). -/
structure TripData where
  userId : String
  source : String
  destination : String
  phoneNumber : String
  bookingDate : Nat
  deriving Repr, DecidableEq

/-- `'TKT-' + Date.now().toString(36).toUpperCase()`. -/
def ticketIdOf (now : Nat) : String :=
  "TKT-" ++ String.mk ((Nat.toDigits 36 now).map Char.toUpper)

/-- The ticket object in a `201 /create-ticket` response body.
`bookingDate` echoes the raw request string; `expiresAt` reads
`ticket.expiresAt` off the saved document. -/
structure CreateTicketBody where
  ticketId : String
  source : String
  destination : String
  phoneNumber : String
  bookingDate : String
  qrCode : String
  createdAt : Nat
  expiresAt : Option Nat
  deriving Repr, DecidableEq

/-- Response body of `POST /create-ticket`. -/
structure CreateTicketResp where
  status : Nat
  success : Bool
  message : String
  ticket : Option CreateTicketBody
  deriving Repr, DecidableEq

/-- Handler of `POST /create-ticket`.  `userId` comes from the bearer
token; `qrEncode` models the external QR encoder applied to the JSON
payload; `parseDate` models `new Date(bookingDate)`; `now` is
`Date.now()`.  Returns the response and the new ticket collection. -/
def createTicket (tickets : List TicketDoc) (userId : String)
    (source destination phoneNumber bookingDate : Option String)
    (qrEncode : TripData → String) (parseDate : String → Nat) (now : Nat) :
    CreateTicketResp × List TicketDoc :=
  if ¬ (truthyStr source ∧ truthyStr destination ∧
        truthyStr phoneNumber ∧ truthyStr bookingDate) then
    (⟨400, false,
      "All fields are required (source, destination, phoneNumber, bookingDate).",
      none⟩, tickets)
  else
    match source, destination, phoneNumber, bookingDate with
    | some src, some dst, some ph, some bd =>
        let ticketData : TripData := ⟨userId, src, dst, ph, parseDate bd⟩
        let qrCode := qrEncode ticketData
        let ticketId := ticketIdOf now
        -- `expiresAt := now + 24h` is computed by the handler but has no
        -- schema path, so the saved document drops it (strict mode).
        let ticket : TicketDoc :=
          ⟨ticketId, userId, src, dst, ph, qrCode, none, TStatus.active,
            parseDate bd, now⟩
        (⟨201, true, "Ticket created successfully",
          some ⟨ticketId, src, dst, ph, bd, qrCode, ticket.createdAt,
            ticket.expiresAtField⟩⟩, tickets ++ [ticket])
    | _, _, _, _ =>
        (⟨400, false,
          "All fields are required (source, destination, phoneNumber, bookingDate).",
          none⟩, tickets)

/-! ## Face comparison

`compareFaces(liveImageBase64, storedImagePath)` wraps the external
face-api.js pipeline in a `try`/`catch` that returns `false` on any error.
The external stages are parameters: `loadImage` (canvas image loading,
may throw), `detect` (`detectSingleFace(...).withFaceLandmarks()
.withFaceDescriptor()`, yielding a descriptor or `undefined`, may throw)
and `dist` (`faceapi.euclideanDistance`). -/

/-- The body of `compareFaces` inside the `try`: any thrown error
propagates as `.error`. -/
def compareFacesBody {Img Desc : Type} (loadImage : String → Except String Img)
    (detect : Img → Except String (Option Desc)) (dist : Desc → Desc → ℚ)
    (liveImageBase64 storedImagePath : String) : Except String Bool :=
  match loadImage liveImageBase64 with
  | Except.error e => Except.error e
  | Except.ok liveImage =>
      match loadImage storedImagePath with
      | Except.error e => Except.error e
      | Except.ok storedImage =>
          match detect liveImage with
          | Except.error e => Except.error e
          | Except.ok liveDetection =>
              match detect storedImage with
              | Except.error e => Except.error e
              | Except.ok storedDetection =>
                  match liveDetection, storedDetection with
                  | some d1, some d2 =>
                      Except.ok (decide (dist d1 d2 < (0.6 : ℚ)))
                  | _, _ => Except.ok false

/-- `compareFaces`: the `try` body with the `catch` clause that converts
any error into `false`. -/
def compareFaces {Img Desc : Type} (loadImage : String → Except String Img)
    (detect : Img → Except String (Option Desc)) (dist : Desc → Desc → ℚ)
    (liveImageBase64 storedImagePath : String) : Bool :=
  match compareFacesBody loadImage detect dist liveImageBase64 storedImagePath with
  | Except.ok b => b
  | Except.error _ => false

/-! ## `/verify-ticket` and `GET /ticket/:id` -/

/-- Response body of `POST /verify-ticket`. -/
structure VerifyTicketResp where
  status : Nat
  success : Bool
  message : String
  deriving Repr, DecidableEq

/-- `Ticket.findOne({ qrCode: qrData, userId })`: first ticket matching
both the scanned code and the authenticated user. -/
def findTicketByQrAndUser (tickets : List TicketDoc) (qrData userId : String) :
    Option TicketDoc :=
  tickets.find? (fun t => decide (t.qrCode = qrData ∧ t.userId = userId))

/-- `ticket.save()` after mutating the status: updates that document in the
collection (identified by its unique `ticketId`). -/
def saveTicketStatus (tickets : List TicketDoc) (tid : String) (st : TStatus) :
    List TicketDoc :=
  tickets.map (fun t => if t.ticketId = tid then { t with status := st } else t)

/-- Handler of `POST /verify-ticket`.  `userId` comes from the bearer
token; `compare live path` models the awaited `compareFaces(faceImage,
user.faceImagePath)` call (see `compareFaces`).  Returns the response and
the new ticket collection. -/
def verifyTicket (tickets : List TicketDoc) (users : List UserDoc)
    (qrData faceImage : String) (userId : String)
    (compare : String → String → Bool) : VerifyTicketResp × List TicketDoc :=
  match findTicketByQrAndUser tickets qrData userId with
  | none =>
      (⟨404, false, "Ticket not found or doesn't belong to user"⟩, tickets)
  | some ticket =>
      match findUserById users userId with
      | none => (⟨400, false, "User face not registered"⟩, tickets)
      | some user =>
          match user.faceImagePath with
          | none => (⟨400, false, "User face not registered"⟩, tickets)
          | some facePath =>
              if compare faceImage facePath then
                (⟨200, true, "Ticket verified successfully"⟩,
                 saveTicketStatus tickets ticket.ticketId TStatus.used)
              else
                (⟨403, false, "Face verification failed"⟩, tickets)

/-- Response body of `GET /ticket/:id`: the success body carries the full
ticket document and no message. -/
structure GetTicketResp where
  status : Nat
  success : Bool
  message : Option String
  ticket : Option TicketDoc
  deriving Repr, DecidableEq

/-- Handler of `GET /ticket/:id`.  `requester` is the authenticated
identity attached by `authenticateToken`; the lookup
`Ticket.findOne({ ticketId: req.params.id })` does not use it. -/
def getTicket (tickets : List TicketDoc) (id : String) (_requester : String) :
    GetTicketResp :=
  match tickets.find? (fun t => decide (t.ticketId = id)) with
  | none => ⟨404, false, some "Ticket not found.", none⟩
  | some t => ⟨200, true, none, some t⟩

/-! ## Helper lemmas -/

/-- Deleting a key removes every binding for it. -/
theorem lookup_delKey_self (s : List (String × String)) (p : String) :
    lookupKey (delKey s p) p = none := by
  induction s with
  | nil => rfl
  | cons e s ih =>
      obtain ⟨k, v⟩ := e
      by_cases h : k = p
      · simpa [delKey, h] using ih
      · have hne : ¬ p = k := fun hpe => h hpe.symm
        simp only [delKey, List.filter_cons, ne_eq, decide_not] at ih ⊢
        simp [h, hne, lookupKey, ih]

/-- Looking up the key just set returns the value just set. -/
theorem lookup_setKey_self (s : List (String × String)) (p v : String) :
    lookupKey (setKey s p v) p = some v := by
  simp [setKey, lookupKey]

/-! ## Claim theorems -/

/-- C9: every code generated by `sendOtp` is a 6-digit number: for every
value `r ∈ [0,1)` of the random source, `genOtp r` lies in
`[100000, 999999]`. -/
theorem genOtp_six_digits (r : ℚ) (h0 : 0 ≤ r) (h1 : r < 1) :
    100000 ≤ genOtp r ∧ genOtp r ≤ 999999 := by
  unfold genOtp
  constructor
  · apply Int.le_floor.mpr
    push_cast
    nlinarith
  · have hlt : ⌊(100000 : ℚ) + r * 900000⌋ < 1000000 := by
      apply Int.floor_lt.mpr
      push_cast
      nlinarith
    omega

/-- C9 witness: the bound instantiated at the concrete random value `1/2`. -/
theorem genOtp_six_digits_witness :
    100000 ≤ genOtp (1/2) ∧ genOtp (1/2) ≤ 999999 :=
  genOtp_six_digits (1/2) (by norm_num) (by norm_num)

/-- C5: `compareFaces` returns `true` iff both images load, both yield a
face descriptor, and the descriptor distance is strictly below the 0.6
threshold; in every other case — zero detections on either side, or any
error thrown by loading or extraction — it returns `false` (it is a total
boolean function, so no exception reaches the caller). -/
theorem compareFaces_spec {Img Desc : Type}
    (loadImage : String → Except String Img)
    (detect : Img → Except String (Option Desc)) (dist : Desc → Desc → ℚ)
    (live path : String) :
    compareFaces loadImage detect dist live path = true ↔
      ∃ li si d1 d2,
        loadImage live = Except.ok li ∧ loadImage path = Except.ok si ∧
        detect li = Except.ok (some d1) ∧ detect si = Except.ok (some d2) ∧
        dist d1 d2 < (0.6 : ℚ) := by
  unfold compareFaces compareFacesBody
  cases hl : loadImage live with
  | error e => simp [hl, Except.bind]
  | ok li =>
      cases hs : loadImage path with
      | error e => simp [hl, hs, Except.bind]
      | ok si =>
          cases hdl : detect li with
          | error e => simp [hl, hs, hdl, Except.bind]
          | ok odl =>
              cases hds : detect si with
              | error e => simp [hl, hs, hdl, hds, Except.bind]
              | ok ods =>
                  cases odl with
                  | none => cases ods <;> simp [hl, hs, hdl, hds, Except.bind]
                  | some d1 =>
                      cases ods with
                      | none => simp [hl, hs, hdl, hds, Except.bind]
                      | some d2 => simp [hl, hs, hdl, hds, Except.bind]

/-- C10: `GET /ticket/:id` ignores the authenticated identity: any two
requesters get the identical response for the same identifier, and when a
ticket with that identifier exists the response hands out the full
document — code, status and all — regardless of who owns it. -/
theorem getTicket_no_ownership_check (tickets : List TicketDoc) (id : String)
    (u1 u2 : String) :
    getTicket tickets id u1 = getTicket tickets id u2 ∧
    (∀ t, tickets.find? (fun tk => decide (tk.ticketId = id)) = some t →
      t.userId ≠ u1 →
      getTicket tickets id u1 = ⟨200, true, none, some t⟩) := by
  refine ⟨rfl, ?_⟩
  intro t ht _
  unfold getTicket
  rw [ht]

/-- A stored user used by concrete instantiations. -/
def sampleUser : UserDoc :=
  ⟨"u1", "Bob", "b@x.com", "HASH", none, none, 0⟩

/-- A stored ticket used by concrete instantiations. -/
def sampleTicket : TicketDoc :=
  ⟨"TKT-1", "owner1", "X", "Y", "+911234567890", "QR1", none,
    TStatus.active, 0, 0⟩

/-- C10 witness: with one stored ticket owned by `owner1`, the requester
`alice` receives the very response `owner1` would, carrying the full
document. -/
theorem getTicket_no_ownership_check_witness :
    getTicket [sampleTicket] "TKT-1" "alice" =
      getTicket [sampleTicket] "TKT-1" "owner1" ∧
    getTicket [sampleTicket] "TKT-1" "alice" =
      ⟨200, true, none, some sampleTicket⟩ := by
  have h := getTicket_no_ownership_check [sampleTicket] "TKT-1" "alice" "owner1"
  exact ⟨h.1, h.2 sampleTicket (by decide) (by decide)⟩

/-- C7: `login` answers a failing attempt with the identical
`401 Invalid credentials.` body whether the email matches no stored user
or the email matches but the password hash comparison fails, so the two
cases cannot be told apart. -/
theorem login_enumeration_resistant (users : List UserDoc)
    (e1 p1 e2 p2 : String) (check : String → String → Bool) (u : UserDoc)
    (he1 : e1 ≠ "") (hp1 : p1 ≠ "") (he2 : e2 ≠ "") (hp2 : p2 ≠ "")
    (hnone : findUserByEmail users e1 = none)
    (hfound : findUserByEmail users e2 = some u)
    (hbad : check p2 u.password = false) :
    login users (some e1) (some p1) check =
      login users (some e2) (some p2) check ∧
    login users (some e1) (some p1) check =
      ⟨401, false, "Invalid credentials.", none, none⟩ := by
  have h1 : login users (some e1) (some p1) check =
      ⟨401, false, "Invalid credentials.", none, none⟩ := by
    unfold login
    simp [truthyStr, he1, hp1, hnone]
  have h2 : login users (some e2) (some p2) check =
      ⟨401, false, "Invalid credentials.", none, none⟩ := by
    unfold login
    simp [truthyStr, he2, hp2, hfound, hbad]
  exact ⟨h1.trans h2.symm, h1⟩

/-- C7 witness: one stored user; an unknown email and a wrong password
yield the same concrete response. -/
theorem login_enumeration_resistant_witness :
    login [sampleUser] (some "a@x.com") (some "pw1") (fun _ _ => false) =
      login [sampleUser] (some "b@x.com") (some "pw2") (fun _ _ => false) ∧
    login [sampleUser] (some "a@x.com") (some "pw1") (fun _ _ => false) =
      ⟨401, false, "Invalid credentials.", none, none⟩ :=
  login_enumeration_resistant [sampleUser] "a@x.com" "pw1" "b@x.com" "pw2"
    (fun _ _ => false) sampleUser (by decide) (by decide) (by decide)
    (by decide) (by decide) (by decide) rfl

/-- C6: registering with an email already present among the stored users
fails with the conflict response and leaves the user collection unchanged
— no duplicate record is created. -/
theorem register_duplicate_email (users : List UserDoc) (nm em pw : String)
    (hash : String → String) (newId : String) (now : Nat)
    (hnm : nm ≠ "") (hem : em ≠ "") (hpw : pw ≠ "")
    (u : UserDoc) (hu : u ∈ users) (hemail : u.email = em) :
    register users (some nm) (some em) (some pw) hash newId now =
      (⟨400, false, "Email or phone number already registered.", none, none⟩,
       users) := by
  cases hfind : findUserByEmail users em with
  | none =>
      exfalso
      have hnot := List.find?_eq_none.mp hfind u hu
      simp [hemail] at hnot
  | some v =>
      unfold register
      simp [truthyStr, hnm, hem, hpw, hfind]

/-- C6 witness: re-registering `b@x.com` (already stored) is rejected and
the collection is exactly what it was. -/
theorem register_duplicate_email_witness :
    register [sampleUser] (some "Carl") (some "b@x.com") (some "pw")
        (fun s => s) "u2" 5 =
      (⟨400, false, "Email or phone number already registered.", none, none⟩,
       [sampleUser]) :=
  register_duplicate_email [sampleUser] "Carl" "b@x.com" "pw" (fun s => s)
    "u2" 5 (by decide) (by decide) (by decide) sampleUser (by decide)
    (by decide)

/-- C8: the `/verify-ticket` lookup matches the scanned code and the
authenticated user together; whenever it fails — the code matches no
ticket at all, or only tickets of other users — the response is the
identical 404 body and the collection is untouched, so a non-owner cannot
learn whether a ticket exists. -/
theorem verifyTicket_notFound_indistinguishable
    (db1 db2 : List TicketDoc) (users1 users2 : List UserDoc)
    (qr img1 img2 uid : String) (cmp1 cmp2 : String → String → Bool)
    (h1 : ∀ t ∈ db1, ¬ (t.qrCode = qr ∧ t.userId = uid))
    (h2 : ∀ t ∈ db2, ¬ (t.qrCode = qr ∧ t.userId = uid)) :
    verifyTicket db1 users1 qr img1 uid cmp1 =
      (⟨404, false, "Ticket not found or doesn't belong to user"⟩, db1) ∧
    verifyTicket db2 users2 qr img2 uid cmp2 =
      (⟨404, false, "Ticket not found or doesn't belong to user"⟩, db2) ∧
    (verifyTicket db1 users1 qr img1 uid cmp1).1 =
      (verifyTicket db2 users2 qr img2 uid cmp2).1 := by
  have hf1 : findTicketByQrAndUser db1 qr uid = none := by
    unfold findTicketByQrAndUser
    rw [List.find?_eq_none]
    intro t ht
    simpa using h1 t ht
  have hf2 : findTicketByQrAndUser db2 qr uid = none := by
    unfold findTicketByQrAndUser
    rw [List.find?_eq_none]
    intro t ht
    simpa using h2 t ht
  refine ⟨?_, ?_, ?_⟩ <;> unfold verifyTicket <;> simp [hf1, hf2]

/-- C8 witness: an empty collection and a collection holding a ticket with
the scanned code but another owner answer `alice` identically. -/
theorem verifyTicket_notFound_indistinguishable_witness :
    verifyTicket [] [] "QR1" "img" "alice" (fun _ _ => true) =
      (⟨404, false, "Ticket not found or doesn't belong to user"⟩, []) ∧
    verifyTicket [sampleTicket] [] "QR1" "img" "alice" (fun _ _ => true) =
      (⟨404, false, "Ticket not found or doesn't belong to user"⟩,
       [sampleTicket]) ∧
    (verifyTicket [] [] "QR1" "img" "alice" (fun _ _ => true)).1 =
      (verifyTicket [sampleTicket] [] "QR1" "img" "alice"
        (fun _ _ => true)).1 :=
  verifyTicket_notFound_indistinguishable [] [sampleTicket] [] []
    "QR1" "img" "img" "alice" (fun _ _ => true) (fun _ _ => true)
    (by simp) (by decide)

/-- Folding the scheduled deletions over a timer list that ends with a due
timer for `p` leaves no binding for `p`. -/
theorem lookup_fireTimers_fold (ts : List (String × Nat))
    (s0 : List (String × String)) (p : String) (t ft : Nat) (hft : ft ≤ t) :
    lookupKey ((ts ++ [(p, ft)]).foldl
      (fun s pr => if pr.2 ≤ t then delKey s pr.1 else s) s0) p = none := by
  rw [List.foldl_append]
  simp [hft, lookup_delKey_self]

/-- C3: `verifyOtp` consumes a stored code exactly on success and only
then: a matching code deletes the entry and returns a token scoped to the
phone number; re-verifying once the entry is gone, or verifying a number
with no live code, hits the `OTP expired or not requested.` failure; a
mismatching code hits the `Invalid OTP.` failure and the stored entry
stays live (the state is unchanged). -/
theorem verifyOtp_single_use (st st2 : OtpState) (p code : String)
    (hp : p ≠ "") (hc : code ≠ "")
    (hstored : lookupKey st.store p = some code)
    (hnolive : lookupKey st2.store p = none) :
    verifyOtp st (some p) (some code) =
      (⟨200, true, "OTP verified successfully!", some ⟨none, none, some p⟩⟩,
       { st with store := delKey st.store p }) ∧
    verifyOtp { st with store := delKey st.store p } (some p) (some code) =
      (⟨400, false, "OTP expired or not requested.", none⟩,
       { st with store := delKey st.store p }) ∧
    verifyOtp st2 (some p) (some code) =
      (⟨400, false, "OTP expired or not requested.", none⟩, st2) ∧
    (∀ other : String, other ≠ "" → other ≠ code →
      verifyOtp st (some p) (some other) =
        (⟨400, false, "Invalid OTP.", none⟩, st)) := by
  refine ⟨?_, ?_, ?_, ?_⟩
  · unfold verifyOtp
    simp [truthyStr, hp, hc, hstored]
  · unfold verifyOtp
    simp [truthyStr, hp, hc, lookup_delKey_self]
  · unfold verifyOtp
    simp [truthyStr, hp, hc, hnolive]
  · intro other hother hne
    have hcn : ¬ code = other := fun h => hne h.symm
    unfold verifyOtp
    simp [truthyStr, hp, hother, hstored, hcn]

/-- C3 witness: a store holding code `123456` for `+9111`: success
consumes it, the replay and the never-requested number fail with the
`expired or not requested` body, and a wrong code fails with
`Invalid OTP.` leaving the entry in place. -/
theorem verifyOtp_single_use_witness :
    verifyOtp ⟨[("+9111", "123456")], []⟩ (some "+9111") (some "123456") =
      (⟨200, true, "OTP verified successfully!",
        some ⟨none, none, some "+9111"⟩⟩, ⟨[], []⟩) ∧
    verifyOtp ⟨[], []⟩ (some "+9111") (some "123456") =
      (⟨400, false, "OTP expired or not requested.", none⟩, ⟨[], []⟩) ∧
    verifyOtp ⟨[("+9112", "777777")], []⟩ (some "+9111") (some "123456") =
      (⟨400, false, "OTP expired or not requested.", none⟩,
       ⟨[("+9112", "777777")], []⟩) ∧
    verifyOtp ⟨[("+9111", "123456")], []⟩ (some "+9111") (some "000000") =
      (⟨400, false, "Invalid OTP.", none⟩, ⟨[("+9111", "123456")], []⟩) := by
  have h := verifyOtp_single_use ⟨[("+9111", "123456")], []⟩
    ⟨[("+9112", "777777")], []⟩ "+9111" "123456" (by decide) (by decide)
    (by decide) (by decide)
  exact ⟨h.1, h.2.1, h.2.2.1, h.2.2.2 "000000" (by decide) (by decide)⟩

/-- C4: `sendOtp` is atomic with respect to the store: a failed delivery
call answers `500 Error sending OTP.` and leaves the whole state
untouched, while a successful one stores the generated code under the
phone number and schedules its deletion, so that once 5 minutes have
passed the firing timer purges the code even if it was never used. -/
theorem sendOtp_atomic (st : OtpState) (p : String) (r : ℚ) (isDev : Bool)
    (now : Nat) (hp : startsWithPlus p = true) :
    sendOtp st (some p) r false isDev now =
      (⟨500, false, "Error sending OTP.", none⟩, st) ∧
    (sendOtp st (some p) r true isDev now).2.store =
      setKey st.store p (toString (genOtp r)) ∧
    lookupKey (sendOtp st (some p) r true isDev now).2.store p =
      some (toString (genOtp r)) ∧
    (∀ t, now + otpTtlMs ≤ t →
      lookupKey (fireTimers (sendOtp st (some p) r true isDev now).2 t).store p
        = none) := by
  have hs2 : (sendOtp st (some p) r true isDev now).2 =
      ⟨setKey st.store p (toString (genOtp r)),
       st.timers ++ [(p, now + otpTtlMs)]⟩ := by
    unfold sendOtp
    simp [hp]
  refine ⟨?_, ?_, ?_, ?_⟩
  · unfold sendOtp
    simp [hp]
  · rw [hs2]
  · rw [hs2]
    exact lookup_setKey_self st.store p (toString (genOtp r))
  · intro t ht
    rw [hs2]
    unfold fireTimers
    exact lookup_fireTimers_fold st.timers _ p t (now + otpTtlMs) ht

/-- C4 witness: from the empty store at time 0 with random value `1/2`:
failed delivery changes nothing, successful delivery stores `550000`
under the number, and firing the timers at the 5-minute mark purges it. -/
theorem sendOtp_atomic_witness :
    sendOtp ⟨[], []⟩ (some "+911234567890") (1/2) false false 0 =
      (⟨500, false, "Error sending OTP.", none⟩, ⟨[], []⟩) ∧
    lookupKey (sendOtp ⟨[], []⟩ (some "+911234567890") (1/2) true false
      0).2.store "+911234567890" = some (toString (genOtp (1/2))) ∧
    lookupKey (fireTimers (sendOtp ⟨[], []⟩ (some "+911234567890") (1/2)
      true false 0).2 300000).store "+911234567890" = none := by
  have h := sendOtp_atomic ⟨[], []⟩ "+911234567890" (1/2) false 0 (by decide)
  exact ⟨h.1, h.2.2.1, h.2.2.2 300000 (by norm_num [otpTtlMs])⟩

/-- C2 counterexample: at a concrete well-formed call the 201 response's
ticket object carries no `expiresAt` value — the handler's computed expiry
has no schema path and is dropped, so `ticket.expiresAt` is undefined,
refuting the claimed defined `expiresAt` in the body. -/
theorem createTicket_expiresAt_undefined :
    ((createTicket [] "u1" (some "X") (some "Y") (some "+911234567890")
        (some "2025-01-01") (fun _ => "QR") (fun _ => 0) 0).1.ticket.map
      CreateTicketBody.expiresAt) = some none := by
  rfl

/-- C2 (amended): a `createTicket` call with all four fields present
persists a ticket with status `active` and `createdAt = now`, the storage
TTL purges it exactly 24 hours after creation, and the 201 body carries
the identifier, trip fields, encoded code and `createdAt` — but its
`expiresAt` is undefined, since `ticketSchema` has no such path. -/
theorem createTicket_spec (tickets : List TicketDoc) (userId : String)
    (src dst ph bd : String) (qrEncode : TripData → String)
    (parseDate : String → Nat) (now : Nat)
    (hsrc : src ≠ "") (hdst : dst ≠ "") (hph : ph ≠ "") (hbd : bd ≠ "") :
    createTicket tickets userId (some src) (some dst) (some ph) (some bd)
        qrEncode parseDate now =
      (⟨201, true, "Ticket created successfully",
        some ⟨ticketIdOf now, src, dst, ph, bd,
          qrEncode ⟨userId, src, dst, ph, parseDate bd⟩, now, none⟩⟩,
       tickets ++ [⟨ticketIdOf now, userId, src, dst, ph,
          qrEncode ⟨userId, src, dst, ph, parseDate bd⟩, none, TStatus.active,
          parseDate bd, now⟩]) ∧
    ticketPurgeTime ⟨ticketIdOf now, userId, src, dst, ph,
        qrEncode ⟨userId, src, dst, ph, parseDate bd⟩, none, TStatus.active,
        parseDate bd, now⟩ = now + 24 * 60 * 60 * 1000 := by
  constructor
  · unfold createTicket
    simp [truthyStr, hsrc, hdst, hph, hbd, TicketDoc.expiresAtField]
  · rfl

/-- C2 witness: the amended statement instantiated at a concrete call. -/
theorem createTicket_spec_witness :
    createTicket [] "u1" (some "X") (some "Y") (some "+911234567890")
        (some "2025-01-01") (fun _ => "QR") (fun _ => 17356) 1700 =
      (⟨201, true, "Ticket created successfully",
        some ⟨ticketIdOf 1700, "X", "Y", "+911234567890", "2025-01-01",
          "QR", 1700, none⟩⟩,
       [⟨ticketIdOf 1700, "u1", "X", "Y", "+911234567890", "QR", none,
          TStatus.active, 17356, 1700⟩]) ∧
    ticketPurgeTime ⟨ticketIdOf 1700, "u1", "X", "Y", "+911234567890", "QR",
        none, TStatus.active, 17356, 1700⟩ = 1700 + 24 * 60 * 60 * 1000 :=
  createTicket_spec [] "u1" "X" "Y" "+911234567890" "2025-01-01"
    (fun _ => "QR") (fun _ => 17356) 1700 (by decide) (by decide) (by decide)
    (by decide)

/-- A stored ticket already consumed: status `used`. -/
def usedTicket : TicketDoc :=
  ⟨"TKT-U", "u1", "X", "Y", "+911234567890", "QRU", none, TStatus.used, 0, 0⟩

/-- A stored ticket in the terminal `expired` state. -/
def expiredTicket : TicketDoc :=
  ⟨"TKT-E", "u1", "X", "Y", "+911234567890", "QRE", none, TStatus.expired,
    0, 0⟩

/-- The owner of the sample tickets, with a registered face reference. -/
def faceUser : UserDoc :=
  ⟨"u1", "Ann", "a@x.com", "HASH", none, some "uploads/face-u1.jpg", 0⟩

/-- C1: the handler performs no status check before mutating.  A ticket
already `used`, re-verified by its owner with a matching face, is answered
with `200 Ticket verified successfully` — not the claimed ConflictError —
and an `expired` ticket is even transitioned expired→used, leaving a
terminal state.  This evaluates `/verify-ticket` at both failing inputs. -/
theorem verifyTicket_missing_status_check :
    verifyTicket [usedTicket] [faceUser] "QRU" "live" "u1"
        (fun _ _ => true) =
      (⟨200, true, "Ticket verified successfully"⟩, [usedTicket]) ∧
    verifyTicket [expiredTicket] [faceUser] "QRE" "live" "u1"
        (fun _ _ => true) =
      (⟨200, true, "Ticket verified successfully"⟩,
       [{ expiredTicket with status := TStatus.used }]) := by
  constructor <;> rfl

end Travelleasy
